import Mathlib

/-!
Verification of the RAS monitoring daemon (`RAS_FINAL.py`): a shallow
embedding of its filtered sampler, UPS battery guard, alert engine,
telemetry client, CSV logger and cycle scheduler, with theorems settling
the behavioural claims about them.

Conventions of the embedding:
* Python floats are modelled as `ℚ`; `None` as `Option.none`.
* A raised Python exception is modelled as `Except.error ()`.
* Side effects (notifications, the shutdown command) are modelled as
  explicit event lists returned by the embedded functions.
-/

namespace RAS

/-! ## FilteredSampler (`SensorMonitor.get_filtered_sample`) -/

/-- One invocation of a measurement capability (`sensor_func()`):
it may raise (`.error ()`), return `None` (`.ok none`) or return a
reading (`.ok (some v)`). -/
abbrev Outcome := Except Unit (Option ℚ)

/-- The readings a list of outcomes would contribute if every absent or
raising invocation were simply skipped. -/
def readingsOf (l : List Outcome) : List ℚ :=
  l.filterMap fun o =>
    match o with
    | .ok (some v) => some v
    | _ => none

/-- The collection loop of `get_filtered_sample`: `reading = sensor_func()`
is executed inside the one batch-level `try`, so a raised exception aborts
the whole loop; a `None` reading is skipped and collection continues. -/
def collectReadings : List Outcome → Except Unit (List ℚ)
  | [] => .ok []
  | .error _ :: _ => .error ()
  | .ok none :: rest => collectReadings rest
  | .ok (some v) :: rest => (collectReadings rest).map fun l => v :: l

/-- Stable insertion into a sorted list (helper for `sortList`). -/
def insort (x : ℚ) : List ℚ → List ℚ
  | [] => [x]
  | y :: ys => if x ≤ y then x :: y :: ys else y :: insort x ys

/-- Ascending sort, modelling Python's `readings.sort()`. -/
def sortList : List ℚ → List ℚ
  | [] => []
  | x :: xs => insort x (sortList xs)

/-- Floor of a rational, via flooring integer division. -/
def floorQ (q : ℚ) : ℤ := Int.fdiv q.num q.den

/-- Round-half-to-even to an integer, the tie-breaking rule of Python's
built-in `round`. -/
def roundHalfEven (q : ℚ) : ℤ :=
  let f := floorQ q
  if q - (f : ℚ) < 1/2 then f
  else if (1 : ℚ)/2 < q - (f : ℚ) then f + 1
  else if f % 2 = 0 then f else f + 1

/-- `round(x, 2)`: round to two decimal places. -/
def pyRound2 (q : ℚ) : ℚ := (roundHalfEven (q * 100) : ℚ) / 100

/-- The trimmed window `readings[discard:-discard]` of the sorted batch
(for `discard = 0` this is the whole sorted batch). -/
def trimmedWindow (readings : List ℚ) (discard : ℕ) : List ℚ :=
  ((sortList readings).drop discard).take (readings.length - 2 * discard)

/-- `SensorMonitor.get_filtered_sample(sensor_func, samples, discard)`.
`outcomes` gives the behaviour of `sensor_func` at successive invocations;
the loop performs `samples` invocations. The final `valid_samples.length = 0`
test models `statistics.mean([])` raising `StatisticsError`, which the
batch-level handler catches, returning `None`. -/
def get_filtered_sample (outcomes : List Outcome) (samples discard : ℕ) : Option ℚ :=
  match collectReadings (outcomes.take samples) with
  | .error _ => none
  | .ok readings =>
    if readings.length < samples - 2 * discard then none
    else
      let sorted := sortList readings
      let valid := if 0 < discard then (sorted.drop discard).take (readings.length - 2 * discard)
                   else sorted
      if valid.length = 0 then none
      else some (pyRound2 (valid.sum / (valid.length : ℚ)))

/-! ## UPSGuard (`UPSMonitor`) -/

/-- `UPSMonitor` mutable state: `shutdown_triggered` and
`last_battery_level` (initially 100). -/
structure UPSState where
  shutdownTriggered : Bool
  lastBatteryLevel : Option ℤ
deriving DecidableEq

/-- The state of a freshly constructed `UPSMonitor`. -/
def initUPS : UPSState := ⟨false, some 100⟩

/-- Observable side effects of the guard: the recurring low-battery
warning notification, and one execution of the shutdown-sequence body
(emergency notification, 30 s grace wait, shutdown command). -/
inductive Event
  | warnNotify (lvl : ℤ)
  | shutdownSeq
deriving DecidableEq

/-- Whether an event is an execution of the shutdown-sequence body. -/
def Event.isShutdown : Event → Bool
  | .shutdownSeq => true
  | _ => false

/-- `UPSMonitor.safe_shutdown`: returns immediately when
`shutdown_triggered` is already set; otherwise sets it and runs the
notify-wait-shutdown body once. -/
def safe_shutdown (st : UPSState) : UPSState × List Event :=
  if st.shutdownTriggered then (st, [])
  else ({ st with shutdownTriggered := true }, [Event.shutdownSeq])

/-- `UPSMonitor.check_battery`, for thresholds `shutdown_threshold = shutThr`
and `ALERT_THRESHOLDS["ups_battery_low"] = warnThr`. `reading` is the value
returned by `get_battery_level` (`none` when both read paths failed). The
boolean result is the "continue monitoring" signal. -/
def check_battery (shutThr warnThr : ℤ) (st : UPSState) (reading : Option ℤ) :
    UPSState × Bool × List Event :=
  let st1 : UPSState := { st with lastBatteryLevel := reading }
  match reading with
  | some lvl =>
    if lvl ≤ shutThr then
      let (st2, evs) := safe_shutdown st1
      (st2, false, evs)
    else if lvl ≤ warnThr then
      (st1, true, [Event.warnNotify lvl])
    else
      (st1, true, [])
  | none => (st1, true, [])

/-- A sequence of `check_battery` calls over a list of battery readings,
recording each call's continue-signal and events. -/
def runChecks (shutThr warnThr : ℤ) (st : UPSState) :
    List (Option ℤ) → UPSState × List (Bool × List Event)
  | [] => (st, [])
  | r :: rs =>
    let res := check_battery shutThr warnThr st r
    let rest := runChecks shutThr warnThr res.1 rs
    (rest.1, (res.2.1, res.2.2) :: rest.2)

/-- Total number of shutdown-sequence executions in a trace. -/
def shutdownCount (steps : List (Bool × List Event)) : ℕ :=
  (steps.map fun s => s.2.countP Event.isShutdown).sum

/-! ## AlertEngine (`SensorMonitor.check_alerts`) -/

/-- The `sensor_data` snapshot: one optional value per sensor, in the
declaration order of the dictionary. -/
structure Snapshot where
  temperature : Option ℚ
  pH : Option ℚ
  conductivity : Option ℚ
  level : Option ℚ
  recirc_pump : Option ℚ
  dispense_pump : Option ℚ
  ups_battery : Option ℚ
deriving DecidableEq

/-- The `ALERT_THRESHOLDS` entries `check_alerts` consults. -/
structure Thresholds where
  temp_low : ℚ
  temp_high : ℚ
  ph_low : ℚ
  ph_high : ℚ
  level_low : ℚ
  level_high : ℚ
  pump_current_low : ℚ
  ups_battery_low : ℚ
deriving DecidableEq

/-- Sensor identifiers, in `sensor_data` declaration order. -/
inductive Metric
  | temperature
  | pH
  | conductivity
  | level
  | recirc_pump
  | dispense_pump
  | ups_battery
deriving DecidableEq, Fintype

/-- The snapshot's value for a metric. -/
def valueAt (s : Snapshot) : Metric → Option ℚ
  | .temperature => s.temperature
  | .pH => s.pH
  | .conductivity => s.conductivity
  | .level => s.level
  | .recirc_pump => s.recirc_pump
  | .dispense_pump => s.dispense_pump
  | .ups_battery => s.ups_battery

/-- The alert messages `check_alerts` can append, each carrying the
offending value (e.g. `tempLow v` is `f"Temperature low: {v}°C"`). -/
inductive Alert
  | tempLow (v : ℚ)
  | tempHigh (v : ℚ)
  | phLow (v : ℚ)
  | phHigh (v : ℚ)
  | levelLow (v : ℚ)
  | levelHigh (v : ℚ)
  | rpumpLow (v : ℚ)
  | dpumpLow (v : ℚ)
  | upsLow (v : ℚ)
deriving DecidableEq

/-- The metric an alert message is about. -/
def Alert.metric : Alert → Metric
  | .tempLow _ => .temperature
  | .tempHigh _ => .temperature
  | .phLow _ => .pH
  | .phHigh _ => .pH
  | .levelLow _ => .level
  | .levelHigh _ => .level
  | .rpumpLow _ => .recirc_pump
  | .dpumpLow _ => .dispense_pump
  | .upsLow _ => .ups_battery

/-- Temperature block of `check_alerts` (`< temp_low`, `elif > temp_high`). -/
def tempAlerts (th : Thresholds) (s : Snapshot) : List Alert :=
  match s.temperature with
  | none => []
  | some v =>
    if v < th.temp_low then [.tempLow v]
    else if th.temp_high < v then [.tempHigh v]
    else []

/-- pH block of `check_alerts`. -/
def phAlerts (th : Thresholds) (s : Snapshot) : List Alert :=
  match s.pH with
  | none => []
  | some v =>
    if v < th.ph_low then [.phLow v]
    else if th.ph_high < v then [.phHigh v]
    else []

/-- Water-level block of `check_alerts`. -/
def levelAlerts (th : Thresholds) (s : Snapshot) : List Alert :=
  match s.level with
  | none => []
  | some v =>
    if v < th.level_low then [.levelLow v]
    else if th.level_high < v then [.levelHigh v]
    else []

/-- Recirculating-pump block of `check_alerts` (strict `<`). -/
def rpumpAlerts (th : Thresholds) (s : Snapshot) : List Alert :=
  match s.recirc_pump with
  | none => []
  | some v => if v < th.pump_current_low then [.rpumpLow v] else []

/-- Dispensing-pump block of `check_alerts` (strict `<`). -/
def dpumpAlerts (th : Thresholds) (s : Snapshot) : List Alert :=
  match s.dispense_pump with
  | none => []
  | some v => if v < th.pump_current_low then [.dpumpLow v] else []

/-- UPS-battery block of `check_alerts` (non-strict `<=` in the source). -/
def upsAlerts (th : Thresholds) (s : Snapshot) : List Alert :=
  match s.ups_battery with
  | none => []
  | some v => if v ≤ th.ups_battery_low then [.upsLow v] else []

/-- `SensorMonitor.check_alerts`: the blocks run in source order
(temperature, pH, level, recirc pump, dispense pump, UPS battery);
conductivity has no alert check in the source. -/
def check_alerts (th : Thresholds) (s : Snapshot) : List Alert :=
  tempAlerts th s ++ phAlerts th s ++ levelAlerts th s ++
    rpumpAlerts th s ++ dpumpAlerts th s ++ upsAlerts th s

/-- The alert condition of `check_alerts` for a present value of a metric
(conductivity is never checked). -/
def violatesB (th : Thresholds) (m : Metric) (v : ℚ) : Bool :=
  match m with
  | .temperature => decide (v < th.temp_low) || decide (th.temp_high < v)
  | .pH => decide (v < th.ph_low) || decide (th.ph_high < v)
  | .conductivity => false
  | .level => decide (v < th.level_low) || decide (th.level_high < v)
  | .recirc_pump => decide (v < th.pump_current_low)
  | .dispense_pump => decide (v < th.pump_current_low)
  | .ups_battery => decide (v ≤ th.ups_battery_low)

/-- A metric raises no alert: absent, or its present value within bounds. -/
def okAt (th : Thresholds) (s : Snapshot) (m : Metric) : Bool :=
  match valueAt s m with
  | none => true
  | some v => !(violatesB th m v)

/-- A metric's value is present and out of bounds. -/
def violatesAt (th : Thresholds) (s : Snapshot) (m : Metric) : Bool :=
  match valueAt s m with
  | none => false
  | some v => violatesB th m v

/-! ## TelemetryPublisher (`ThingsBoardHTTPClient.send_telemetry`) -/

/-- Outcome of the HTTPS POST, when one is attempted: a response status,
or one of the individually caught transport failures. -/
inductive NetOutcome
  | status (code : ℕ)
  | sslError
  | connError
  | timeoutError
  | otherError
deriving DecidableEq

/-- Result model of `send_telemetry`: the returned boolean and whether a
network call was performed. `tokens` is `DEVICE_CREDENTIALS.get`; Python's
`if not token` treats both a missing and an empty token as unconfigured. -/
def send_telemetry_result (tokens : String → Option String) (device : String)
    (net : NetOutcome) : Bool × Bool :=
  match tokens device with
  | none => (false, false)
  | some t =>
    if t = "" then (false, false)
    else
      match net with
      | .status c => (decide (c = 200 ∨ c = 201), true)
      | _ => (false, true)

/-! ## Payload aliasing in `send_telemetry` (dict branch)

A heap of dictionaries models Python object identity: a dict is an entry
of the store, a reference is its index. `payload = data` aliases, then
`payload["ts"] = int(time.time() * 1000)` updates the shared object. -/

/-- Python `d[k] = v` on an insertion-ordered dictionary modelled as an
association list: overwrite in place if the key exists, else append. -/
def setKey (k : String) (v : ℤ) (d : List (String × ℤ)) : List (String × ℤ) :=
  if d.any fun p => p.1 = k then d.map fun p => if p.1 = k then (k, v) else p
  else d ++ [(k, v)]

/-- The payload-preparation steps of `send_telemetry` when `data` is a
dict: the payload is the very dict passed in (index `ref` of the store),
and `"ts"` is written into it. Returns the updated store and the index of
the payload dict. -/
def send_telemetry_payload (store : List (List (String × ℤ))) (ref : ℕ) (ts : ℤ) :
    List (List (String × ℤ)) × ℕ :=
  (store.set ref (setKey "ts" ts (store.getD ref [])), ref)

/-! ## CSV logger (`SensorMonitor.log_data`) -/

/-- One CSV field: `value or ""` — Python truthiness makes both `None`
and `0` render as the empty field (`none`). -/
def csvField (v : Option ℚ) : Option ℚ :=
  match v with
  | none => none
  | some x => if x = 0 then none else some x

/-- The sensor fields of the one CSV line written by `log_data`, in
source order (after the date and time fields). -/
def logFields (s : Snapshot) : List (Option ℚ) :=
  [csvField s.temperature, csvField s.pH, csvField s.conductivity,
   csvField s.level, csvField s.recirc_pump, csvField s.dispense_pump,
   csvField s.ups_battery]

/-! ## CycleScheduler (`ups_monitoring_cycle`, `collect_and_publish`) -/

/-- One iteration of `ups_monitoring_cycle`. `running` is `self._running`
on entry; `body` is the outcome of `check_battery` (`.ok cont`, or
`.error ()` when the body raised — caught by the `except`). Returns the
`running` flag at the end of the iteration and whether the `finally`
block armed the next timer. `.ok false` models the stop signal, on which
the body calls `self.stop()` (setting `running` to false) and returns;
the `finally` block still runs. -/
def ups_monitoring_cycle (running : Bool) (body : Except Unit Bool) : Bool × Bool :=
  if running = false then (running, false)
  else
    match body with
    | .ok false => (false, false)
    | .ok true => (running, running)
    | .error _ => (running, running)

/-- One iteration of `collect_and_publish`. The body never changes
`running` (all its failure paths are caught internally); an exception is
caught at the cycle boundary and the `finally` block rearms iff `running`
is still true. -/
def collect_and_publish (running : Bool) (body : Except Unit Unit) : Bool × Bool :=
  if running = false then (running, false)
  else
    match body with
    | .ok _ => (running, running)
    | .error _ => (running, running)

/-! ## Lemmas about the filtered sampler -/

theorem insort_length (x : ℚ) (l : List ℚ) : (insort x l).length = l.length + 1 := by
  induction l with
  | nil => simp [insort]
  | cons y ys ih =>
    simp only [insort]
    split
    · simp
    · simp [ih]

theorem sortList_length (l : List ℚ) : (sortList l).length = l.length := by
  induction l with
  | nil => simp [sortList]
  | cons x xs ih => simp [sortList, insort_length, ih]

theorem collectReadings_ok (l : List Outcome) (h : ∀ o ∈ l, o ≠ .error ()) :
    collectReadings l = .ok (readingsOf l) := by
  induction l with
  | nil => simp [collectReadings, readingsOf]
  | cons o rest ih =>
    match o with
    | .error e =>
      cases e
      exact absurd rfl (h (.error ()) (List.mem_cons_self _ _))
    | .ok none =>
      have := ih fun o ho => h o (List.mem_cons_of_mem _ ho)
      simpa [collectReadings, readingsOf] using this
    | .ok (some v) =>
      have := ih fun o ho => h o (List.mem_cons_of_mem _ ho)
      simp [collectReadings, readingsOf, this, Except.map]

theorem collectReadings_error (l : List Outcome) (h : Except.error () ∈ l) :
    collectReadings l = .error () := by
  induction l with
  | nil => simp at h
  | cons o rest ih =>
    match o with
    | .error e => rfl
    | .ok v =>
      have hmem : Except.error () ∈ rest := by
        rcases List.mem_cons.mp h with h1 | h1
        · exact absurd h1.symm (by simp)
        · exact h1
      cases v with
      | none => simpa [collectReadings] using ih hmem
      | some w => simp [collectReadings, ih hmem, Except.map]

theorem trimmedWindow_zero (l : List ℚ) : trimmedWindow l 0 = sortList l := by
  simp [trimmedWindow, ← sortList_length l]

/-! ## C2 / C3: claim theorems about the filtered sampler -/

/-- The spec scenario batch: raw readings `[1,2,3,4,5,6,100]`. -/
def scen2 : List Outcome :=
  [.ok (some 1), .ok (some 2), .ok (some 3), .ok (some 4), .ok (some 5),
   .ok (some 6), .ok (some 100)]

/-- A batch for `count = 7, discard = 3` in which only one invocation
yields a reading: `k = 1 ≥ 7 − 2·3`, yet trimming 3 from each end of one
reading leaves nothing to average. -/
def scen2b : List Outcome :=
  [.ok (some 5), .ok none, .ok none, .ok none, .ok none, .ok none, .ok none]

/-- Claim C2, counterexample: with `count = 7, discard = 3` and a single
valid reading, `k = 1` is not below `N − 2D = 1`, so the claim promises
the trimmed mean — but the trimmed window is empty, `statistics.mean`
raises, and `get_filtered_sample` returns `None` (no mean at all). -/
theorem filtered_sample_cex :
    ¬ (readingsOf (scen2b.take 7)).length < 7 - 2 * 3 ∧
      get_filtered_sample scen2b 7 3 = none := by
  constructor
  · decide
  · decide

/-- Claim C2 (amended): for a batch of `N` invocations none of which
raises, with `k` valid readings: if `k < N − 2D` the result is
unavailable; if moreover the trimmed window is empty (`k ≤ 2D`) the
result is also unavailable (`statistics.mean([])` raises and the batch
handler returns `None`); otherwise the result is the mean of the sorted
readings with the lowest `D` and highest `D` removed, rounded to two
decimals. -/
theorem filtered_sample_spec (outcomes : List Outcome) (N D : ℕ)
    (hno : ∀ o ∈ outcomes.take N, o ≠ .error ()) :
    ((readingsOf (outcomes.take N)).length < N - 2 * D →
      get_filtered_sample outcomes N D = none) ∧
    (¬ (readingsOf (outcomes.take N)).length < N - 2 * D →
      (readingsOf (outcomes.take N)).length ≤ 2 * D →
      get_filtered_sample outcomes N D = none) ∧
    (¬ (readingsOf (outcomes.take N)).length < N - 2 * D →
      2 * D < (readingsOf (outcomes.take N)).length →
      get_filtered_sample outcomes N D =
        some (pyRound2 ((trimmedWindow (readingsOf (outcomes.take N)) D).sum /
          ((trimmedWindow (readingsOf (outcomes.take N)) D).length : ℚ)))) := by
  have hc := collectReadings_ok _ hno
  set R := readingsOf (outcomes.take N) with hR
  refine ⟨?_, ?_, ?_⟩
  · intro hk
    simp [get_filtered_sample, hc, hk]
  · intro hk hle
    simp only [get_filtered_sample, hc]
    rw [if_neg hk]
    have hz : R.length - 2 * D = 0 := Nat.sub_eq_zero_of_le hle
    by_cases hD : 0 < D
    · simp [hD, hz]
    · have hD0 : D = 0 := Nat.eq_zero_of_not_pos hD
      have : R.length = 0 := by omega
      have hnil : R = [] := List.length_eq_zero.mp this
      simp [hD, hnil, sortList]
  · intro hk hgt
    simp only [get_filtered_sample, hc]
    rw [if_neg hk]
    by_cases hD : 0 < D
    · have hlen : (((sortList R).drop D).take (R.length - 2 * D)).length ≠ 0 := by
        simp only [List.length_take, List.length_drop, sortList_length]
        omega
      simp only [hD, if_pos, if_true]
      rw [if_neg hlen]
      simp [trimmedWindow]
    · have hD0 : D = 0 := Nat.eq_zero_of_not_pos hD
      subst hD0
      have hlen : (sortList R).length ≠ 0 := by
        rw [sortList_length]; omega
      simp only [lt_irrefl, if_false]
      rw [if_neg hlen]
      rw [trimmedWindow_zero]

/-- Witness: the spec scenario `count = 7, discard = 1`, readings
`[1,2,3,4,5,6,100]` — the trimmed window is `[2,3,4,5,6]` and the result
is `4.0`. -/
theorem filtered_sample_spec_witness : get_filtered_sample scen2 7 1 = some 4 := by
  have ht : trimmedWindow (readingsOf (List.take 7 scen2)) 1 = [2, 3, 4, 5, 6] := by
    decide
  have h := (filtered_sample_spec scen2 7 1 (by simp [scen2])).2.2 (by decide) (by decide)
  rw [h, ht]
  norm_num [pyRound2, roundHalfEven, floorQ, Int.fdiv]

/-- A batch whose first invocation raises and whose remaining six return
the readings `1..6`. -/
def scen3 : List Outcome :=
  [.error (), .ok (some 1), .ok (some 2), .ok (some 3), .ok (some 4),
   .ok (some 5), .ok (some 6)]

/-- `scen3` with the raising invocation replaced by an absent reading —
what C3 claims the code treats it as. -/
def scen3abs : List Outcome :=
  [.ok none, .ok (some 1), .ok (some 2), .ok (some 3), .ok (some 4),
   .ok (some 5), .ok (some 6)]

/-- Claim C3, counterexample: an exception from the measurement
capability is NOT equivalent to an absent reading. With `count = 7,
discard = 1`, a batch whose first invocation raises returns `None`
(the single batch-level `try` aborts the whole collection loop), while
the same batch with an absent reading instead returns the trimmed mean
`3.5` of the remaining six readings. -/
theorem measure_exception_cex :
    get_filtered_sample scen3 7 1 ≠ get_filtered_sample scen3abs 7 1 := by
  have h1 : get_filtered_sample scen3 7 1 = none := by decide
  have h2 : get_filtered_sample scen3abs 7 1 = some (7/2) := by
    norm_num [get_filtered_sample, collectReadings, Except.map, sortList, insort,
      pyRound2, roundHalfEven, floorQ, scen3abs]
  rw [h1, h2]
  simp

/-- Claim C3 (amended): an exception raised by the measurement capability
during any of the `N` invocations aborts the whole batch — the single
batch-level handler catches it and `get_filtered_sample` returns
unavailable. Only an absent (`None`) reading is skipped for that sample
alone, with collection continuing unchanged. -/
theorem measure_exception_spec (outcomes : List Outcome) (N D : ℕ)
    (herr : Except.error () ∈ outcomes.take N) :
    get_filtered_sample outcomes N D = none ∧
    ∀ l₁ l₂ : List Outcome,
      collectReadings (l₁ ++ Except.ok none :: l₂) = collectReadings (l₁ ++ l₂) := by
  constructor
  · simp [get_filtered_sample, collectReadings_error _ herr]
  · intro l₁ l₂
    induction l₁ with
    | nil => simp [collectReadings]
    | cons o t ih =>
      match o with
      | .error e => rfl
      | .ok none => simpa [collectReadings] using ih
      | .ok (some v) => simp [collectReadings, ih]

/-- Witness: applying C3's theorem to the batch `scen3`, whose first
invocation raises, yields an unavailable batch. -/
theorem measure_exception_spec_witness : get_filtered_sample scen3 7 1 = none :=
  (measure_exception_spec scen3 7 1 (by simp [scen3])).1

/-! ## Lemmas about the UPS guard -/

theorem check_battery_triggered_mono (a b : ℤ) (st : UPSState) (r : Option ℤ)
    (h : st.shutdownTriggered = true) :
    (check_battery a b st r).1.shutdownTriggered = true := by
  cases r with
  | none => simpa [check_battery] using h
  | some lvl =>
    simp only [check_battery, safe_shutdown]
    split
    · simp [h]
    · split <;> simpa using h

theorem runChecks_triggered_mono (a b : ℤ) (st : UPSState) (l : List (Option ℤ))
    (h : st.shutdownTriggered = true) :
    (runChecks a b st l).1.shutdownTriggered = true := by
  induction l generalizing st with
  | nil => simpa [runChecks] using h
  | cons r rs ih =>
    simp only [runChecks]
    exact ih _ (check_battery_triggered_mono a b st r h)

theorem runChecks_fst_append (a b : ℤ) (st : UPSState) (pre suf : List (Option ℤ)) :
    (runChecks a b st (pre ++ suf)).1 = (runChecks a b (runChecks a b st pre).1 suf).1 := by
  induction pre generalizing st with
  | nil => simp [runChecks]
  | cons r rs ih => simp [runChecks, ih]

theorem check_battery_count_triggered (a b : ℤ) (st : UPSState) (r : Option ℤ)
    (h : st.shutdownTriggered = true) :
    (check_battery a b st r).2.2.countP Event.isShutdown = 0 := by
  cases r with
  | none => simp [check_battery]
  | some lvl =>
    simp only [check_battery, safe_shutdown]
    split
    · simp [h]
    · split <;> simp [Event.isShutdown]

theorem runChecks_count_triggered (a b : ℤ) (st : UPSState) (l : List (Option ℤ))
    (h : st.shutdownTriggered = true) :
    shutdownCount (runChecks a b st l).2 = 0 := by
  induction l generalizing st with
  | nil => simp [runChecks, shutdownCount]
  | cons r rs ih =>
    simp only [runChecks, shutdownCount, List.map_cons, List.sum_cons]
    rw [check_battery_count_triggered a b st r h]
    simpa [shutdownCount] using ih _ (check_battery_triggered_mono a b st r h)

theorem runChecks_count_le_one (a b : ℤ) (st : UPSState) (l : List (Option ℤ))
    (h : st.shutdownTriggered = false) :
    shutdownCount (runChecks a b st l).2 ≤ 1 := by
  induction l generalizing st with
  | nil => simp [runChecks, shutdownCount]
  | cons r rs ih =>
    simp only [runChecks, shutdownCount, List.map_cons, List.sum_cons]
    cases r with
    | none =>
      have : ({ st with lastBatteryLevel := none } : UPSState).shutdownTriggered = false := h
      simpa [check_battery, shutdownCount] using ih _ this
    | some lvl =>
      by_cases hs : lvl ≤ a
      · have h1 : (check_battery a b st (some lvl)).2.2.countP Event.isShutdown = 1 := by
          simp [check_battery, safe_shutdown, hs, h, Event.isShutdown]
        have h2 : (check_battery a b st (some lvl)).1.shutdownTriggered = true := by
          simp [check_battery, safe_shutdown, hs, h]
        rw [h1]
        have := runChecks_count_triggered a b _ rs h2
        simp only [shutdownCount] at this
        omega
      · have h1 : (check_battery a b st (some lvl)).2.2.countP Event.isShutdown = 0 := by
          by_cases hw : lvl ≤ b <;> simp [check_battery, hs, hw, Event.isShutdown]
        have h2 : (check_battery a b st (some lvl)).1.shutdownTriggered = false := by
          by_cases hw : lvl ≤ b <;> simpa [check_battery, hs, hw] using h
        rw [h1]
        have := ih _ h2
        simp only [shutdownCount] at this
        omega

/-! ## C1: single, idempotent shutdown -/

/-- Claim C1: across any sequence of `check_battery` calls from the
initial state, `shutdown_triggered` starts false, is never reset once
set (monotone along every prefix of the trace), and the shutdown
sequence body runs at most once over the whole trace; a call to
`safe_shutdown` with the flag already set returns immediately with no
side effects and no state change. -/
theorem shutdown_once (shutThr warnThr : ℤ) (readings : List (Option ℤ)) :
    initUPS.shutdownTriggered = false ∧
    shutdownCount (runChecks shutThr warnThr initUPS readings).2 ≤ 1 ∧
    (∀ pre suf : List (Option ℤ), readings = pre ++ suf →
      (runChecks shutThr warnThr initUPS pre).1.shutdownTriggered = true →
      (runChecks shutThr warnThr initUPS readings).1.shutdownTriggered = true) ∧
    (∀ st : UPSState, st.shutdownTriggered = true → safe_shutdown st = (st, [])) := by
  refine ⟨rfl, runChecks_count_le_one _ _ _ _ rfl, ?_, ?_⟩
  · intro pre suf hsplit htrig
    subst hsplit
    rw [runChecks_fst_append]
    exact runChecks_triggered_mono _ _ _ suf htrig
  · intro st h
    simp [safe_shutdown, h]

/-- Witness for C1: with thresholds 20/25 and two consecutive critical
readings, the flag is set after the first check and stays set, and the
whole trace runs the shutdown sequence exactly once. -/
theorem shutdown_once_witness :
    (runChecks 20 25 initUPS [some 10, some 10]).1.shutdownTriggered = true ∧
    shutdownCount (runChecks 20 25 initUPS [some 10, some 10]).2 ≤ 1 ∧
    safe_shutdown ⟨true, some 10⟩ = (⟨true, some 10⟩, []) := by
  have h := shutdown_once 20 25 [some 10, some 10]
  exact ⟨h.2.2.1 [some 10] [some 10] rfl (by decide), h.2.1,
    h.2.2.2 ⟨true, some 10⟩ rfl⟩

/-! ## C4: battery scenario and warning band -/

/-- Claim C4, counterexample: the spec scenario readings `[55, 30, 18]`
with warn threshold 25 and shutdown threshold 20 do NOT produce a
warning at check 2: the code warns only when `level <= 25`, and
`30 > 25`, so check 2 takes no action. The full trace is: check 1 no
action, check 2 no action, check 3 the shutdown sequence with the
continue-signal false. -/
theorem battery_scenario_cex :
    (runChecks 20 25 initUPS [some 55, some 30, some 18]).2 =
      [(true, []), (true, []), (false, [Event.shutdownSeq])] := by
  decide

/-- Claim C4 (amended): with `lowBatteryWarnThreshold = 25` and
`shutdownThreshold = 20`, the readings `[55, 30, 18]` produce: check 1
no action, check 2 no action (30 is above the warn threshold, so no
warning is sent), check 3 the shutdown sequence exactly once with the
check returning false. In general a level strictly between the two
thresholds produces a warning notification on every check, and a level
strictly above the warn threshold never produces one. -/
theorem battery_scenario (shutThr warnThr : ℤ) (st : UPSState) (lvl : ℤ) :
    ((runChecks 20 25 initUPS [some 55, some 30, some 18]).2 =
      [(true, []), (true, []), (false, [Event.shutdownSeq])] ∧
     shutdownCount (runChecks 20 25 initUPS [some 55, some 30, some 18]).2 = 1) ∧
    (shutThr < lvl → lvl ≤ warnThr →
      check_battery shutThr warnThr st (some lvl) =
        ({ st with lastBatteryLevel := some lvl }, true, [Event.warnNotify lvl])) ∧
    (shutThr < warnThr → warnThr < lvl →
      check_battery shutThr warnThr st (some lvl) =
        ({ st with lastBatteryLevel := some lvl }, true, [])) := by
  refine ⟨⟨by decide, by decide⟩, ?_, ?_⟩
  · intro h1 h2
    have hns : ¬ lvl ≤ shutThr := not_le.mpr h1
    simp [check_battery, hns, h2]
  · intro h0 h1
    have hns : ¬ lvl ≤ shutThr := by omega
    have hnw : ¬ lvl ≤ warnThr := not_le.mpr h1
    simp [check_battery, hns, hnw]

/-- Witness for C4: a level of 22 (strictly between 20 and 25) warns;
a level of 55 (above 25) does not. -/
theorem battery_scenario_witness :
    check_battery 20 25 initUPS (some 22) =
      ({ initUPS with lastBatteryLevel := some 22 }, true, [Event.warnNotify 22]) ∧
    check_battery 20 25 initUPS (some 55) =
      ({ initUPS with lastBatteryLevel := some 55 }, true, []) :=
  ⟨(battery_scenario 20 25 initUPS 22).2.1 (by decide) (by decide),
   (battery_scenario 20 25 initUPS 55).2.2 (by decide) (by decide)⟩

/-! ## Lemmas about the alert blocks -/

theorem tempAlerts_ok (th : Thresholds) (s : Snapshot)
    (h : okAt th s .temperature = true) : tempAlerts th s = [] := by
  simp only [okAt, valueAt] at h
  cases hts : s.temperature with
  | none => simp [tempAlerts, hts]
  | some v =>
    rw [hts] at h
    simp [violatesB] at h
    simp [tempAlerts, hts, not_lt.mpr h.1, not_lt.mpr h.2]

theorem phAlerts_ok (th : Thresholds) (s : Snapshot)
    (h : okAt th s .pH = true) : phAlerts th s = [] := by
  simp only [okAt, valueAt] at h
  cases hts : s.pH with
  | none => simp [phAlerts, hts]
  | some v =>
    rw [hts] at h
    simp [violatesB] at h
    simp [phAlerts, hts, not_lt.mpr h.1, not_lt.mpr h.2]

theorem levelAlerts_ok (th : Thresholds) (s : Snapshot)
    (h : okAt th s .level = true) : levelAlerts th s = [] := by
  simp only [okAt, valueAt] at h
  cases hts : s.level with
  | none => simp [levelAlerts, hts]
  | some v =>
    rw [hts] at h
    simp [violatesB] at h
    simp [levelAlerts, hts, not_lt.mpr h.1, not_lt.mpr h.2]

theorem rpumpAlerts_ok (th : Thresholds) (s : Snapshot)
    (h : okAt th s .recirc_pump = true) : rpumpAlerts th s = [] := by
  simp only [okAt, valueAt] at h
  cases hts : s.recirc_pump with
  | none => simp [rpumpAlerts, hts]
  | some v =>
    rw [hts] at h
    simp [violatesB] at h
    simp [rpumpAlerts, hts, h]

theorem dpumpAlerts_ok (th : Thresholds) (s : Snapshot)
    (h : okAt th s .dispense_pump = true) : dpumpAlerts th s = [] := by
  simp only [okAt, valueAt] at h
  cases hts : s.dispense_pump with
  | none => simp [dpumpAlerts, hts]
  | some v =>
    rw [hts] at h
    simp [violatesB] at h
    simp [dpumpAlerts, hts, h]

theorem upsAlerts_ok (th : Thresholds) (s : Snapshot)
    (h : okAt th s .ups_battery = true) : upsAlerts th s = [] := by
  simp only [okAt, valueAt] at h
  cases hts : s.ups_battery with
  | none => simp [upsAlerts, hts]
  | some v =>
    rw [hts] at h
    simp [violatesB] at h
    simp [upsAlerts, hts, h]

theorem tempAlerts_one (th : Thresholds) (s : Snapshot)
    (h : violatesAt th s .temperature = true) :
    (tempAlerts th s).map Alert.metric = [Metric.temperature] := by
  simp only [violatesAt, valueAt] at h
  cases hts : s.temperature with
  | none => rw [hts] at h; simp at h
  | some v =>
    rw [hts] at h
    simp [violatesB] at h
    rcases h with h | h
    · simp [tempAlerts, hts, h, Alert.metric]
    · have hnl : ¬ v < th.temp_low ∨ v < th.temp_low := em _ |>.symm
      by_cases hl : v < th.temp_low
      · simp [tempAlerts, hts, hl, Alert.metric]
      · simp [tempAlerts, hts, hl, h, Alert.metric]

theorem phAlerts_one (th : Thresholds) (s : Snapshot)
    (h : violatesAt th s .pH = true) :
    (phAlerts th s).map Alert.metric = [Metric.pH] := by
  simp only [violatesAt, valueAt] at h
  cases hts : s.pH with
  | none => rw [hts] at h; simp at h
  | some v =>
    rw [hts] at h
    simp [violatesB] at h
    by_cases hl : v < th.ph_low
    · simp [phAlerts, hts, hl, Alert.metric]
    · rcases h with h | h
      · exact absurd h hl
      · simp [phAlerts, hts, hl, h, Alert.metric]

theorem levelAlerts_one (th : Thresholds) (s : Snapshot)
    (h : violatesAt th s .level = true) :
    (levelAlerts th s).map Alert.metric = [Metric.level] := by
  simp only [violatesAt, valueAt] at h
  cases hts : s.level with
  | none => rw [hts] at h; simp at h
  | some v =>
    rw [hts] at h
    simp [violatesB] at h
    by_cases hl : v < th.level_low
    · simp [levelAlerts, hts, hl, Alert.metric]
    · rcases h with h | h
      · exact absurd h hl
      · simp [levelAlerts, hts, hl, h, Alert.metric]

theorem rpumpAlerts_one (th : Thresholds) (s : Snapshot)
    (h : violatesAt th s .recirc_pump = true) :
    (rpumpAlerts th s).map Alert.metric = [Metric.recirc_pump] := by
  simp only [violatesAt, valueAt] at h
  cases hts : s.recirc_pump with
  | none => rw [hts] at h; simp at h
  | some v =>
    rw [hts] at h
    simp [violatesB] at h
    simp [rpumpAlerts, hts, h, Alert.metric]

theorem dpumpAlerts_one (th : Thresholds) (s : Snapshot)
    (h : violatesAt th s .dispense_pump = true) :
    (dpumpAlerts th s).map Alert.metric = [Metric.dispense_pump] := by
  simp only [violatesAt, valueAt] at h
  cases hts : s.dispense_pump with
  | none => rw [hts] at h; simp at h
  | some v =>
    rw [hts] at h
    simp [violatesB] at h
    simp [dpumpAlerts, hts, h, Alert.metric]

theorem upsAlerts_one (th : Thresholds) (s : Snapshot)
    (h : violatesAt th s .ups_battery = true) :
    (upsAlerts th s).map Alert.metric = [Metric.ups_battery] := by
  simp only [violatesAt, valueAt] at h
  cases hts : s.ups_battery with
  | none => rw [hts] at h; simp at h
  | some v =>
    rw [hts] at h
    simp [violatesB] at h
    simp [upsAlerts, hts, h, Alert.metric]

theorem tempAlerts_mem (th : Thresholds) (s : Snapshot) (a : Alert)
    (h : a ∈ tempAlerts th s) : a.metric = .temperature := by
  unfold tempAlerts at h
  split at h
  · simp at h
  · split at h <;> [skip; split at h] <;> simp_all [Alert.metric]

theorem phAlerts_mem (th : Thresholds) (s : Snapshot) (a : Alert)
    (h : a ∈ phAlerts th s) : a.metric = .pH := by
  unfold phAlerts at h
  split at h
  · simp at h
  · split at h <;> [skip; split at h] <;> simp_all [Alert.metric]

theorem levelAlerts_mem (th : Thresholds) (s : Snapshot) (a : Alert)
    (h : a ∈ levelAlerts th s) : a.metric = .level := by
  unfold levelAlerts at h
  split at h
  · simp at h
  · split at h <;> [skip; split at h] <;> simp_all [Alert.metric]

theorem rpumpAlerts_mem (th : Thresholds) (s : Snapshot) (a : Alert)
    (h : a ∈ rpumpAlerts th s) : a.metric = .recirc_pump := by
  unfold rpumpAlerts at h
  split at h
  · simp at h
  · split at h <;> simp_all [Alert.metric]

theorem dpumpAlerts_mem (th : Thresholds) (s : Snapshot) (a : Alert)
    (h : a ∈ dpumpAlerts th s) : a.metric = .dispense_pump := by
  unfold dpumpAlerts at h
  split at h
  · simp at h
  · split at h <;> simp_all [Alert.metric]

theorem upsAlerts_mem (th : Thresholds) (s : Snapshot) (a : Alert)
    (h : a ∈ upsAlerts th s) : a.metric = .ups_battery := by
  unfold upsAlerts at h
  split at h
  · simp at h
  · split at h <;> simp_all [Alert.metric]

theorem tempAlerts_sub (th : Thresholds) (s : Snapshot) :
    List.Sublist ((tempAlerts th s).map Alert.metric) [Metric.temperature] := by
  unfold tempAlerts
  split
  · simp
  · split <;> [simp [Alert.metric]; split <;> simp [Alert.metric]]

theorem phAlerts_sub (th : Thresholds) (s : Snapshot) :
    List.Sublist ((phAlerts th s).map Alert.metric) [Metric.pH] := by
  unfold phAlerts
  split
  · simp
  · split <;> [simp [Alert.metric]; split <;> simp [Alert.metric]]

theorem levelAlerts_sub (th : Thresholds) (s : Snapshot) :
    List.Sublist ((levelAlerts th s).map Alert.metric) [Metric.level] := by
  unfold levelAlerts
  split
  · simp
  · split <;> [simp [Alert.metric]; split <;> simp [Alert.metric]]

theorem rpumpAlerts_sub (th : Thresholds) (s : Snapshot) :
    List.Sublist ((rpumpAlerts th s).map Alert.metric) [Metric.recirc_pump] := by
  unfold rpumpAlerts
  split
  · simp
  · split <;> simp [Alert.metric]

theorem dpumpAlerts_sub (th : Thresholds) (s : Snapshot) :
    List.Sublist ((dpumpAlerts th s).map Alert.metric) [Metric.dispense_pump] := by
  unfold dpumpAlerts
  split
  · simp
  · split <;> simp [Alert.metric]

theorem upsAlerts_sub (th : Thresholds) (s : Snapshot) :
    List.Sublist ((upsAlerts th s).map Alert.metric) [Metric.ups_battery] := by
  unfold upsAlerts
  split
  · simp
  · split <;> simp [Alert.metric]

theorem conductivity_never_violates (th : Thresholds) (s : Snapshot) :
    violatesAt th s .conductivity = false := by
  simp only [violatesAt, valueAt]
  cases s.conductivity <;> simp [violatesB]

/-! ## C5 / C8: alert-engine claims -/

/-- The spec scenario snapshot: temperature 15.0, pH 7.0, level 500,
everything else absent. -/
def snap5 : Snapshot := ⟨some 15, some 7, none, some 500, none, none, none⟩

/-- Thresholds for the scenario: temperature 18–30, pH 6–8, level
100–1000, pump low bound 5, UPS battery low bound 25. -/
def thr5 : Thresholds := ⟨18, 30, 6, 8, 100, 1000, 5, 25⟩

/-- A snapshot whose only present value is a UPS battery level of 25,
exactly the configured low bound. -/
def snap8 : Snapshot := ⟨none, none, none, none, none, none, some 25⟩

/-- Claim C5: (1) the scenario snapshot yields exactly the low-temperature
alert; (2) a snapshot with all present values within bounds yields no
alerts; (3) with every other metric unalerting, one violating metric
yields exactly one alert, for that metric; (4) for the two-sided metrics
the low-bound message is produced in preference to the high-bound one;
(5) absent values never alert; (6) alerts appear in sensor-declaration
order. -/
theorem check_alerts_spec :
    check_alerts thr5 snap5 = [Alert.tempLow 15] ∧
    (∀ (th : Thresholds) (s : Snapshot),
      (∀ m, okAt th s m = true) → check_alerts th s = []) ∧
    (∀ (th : Thresholds) (s : Snapshot) (m : Metric),
      (∀ m2, m2 ≠ m → okAt th s m2 = true) → violatesAt th s m = true →
      (check_alerts th s).map Alert.metric = [m]) ∧
    (∀ (th : Thresholds) (s : Snapshot) (v : ℚ),
      (s.temperature = some v → v < th.temp_low →
        Alert.tempLow v ∈ check_alerts th s ∧ Alert.tempHigh v ∉ check_alerts th s) ∧
      (s.pH = some v → v < th.ph_low →
        Alert.phLow v ∈ check_alerts th s ∧ Alert.phHigh v ∉ check_alerts th s) ∧
      (s.level = some v → v < th.level_low →
        Alert.levelLow v ∈ check_alerts th s ∧ Alert.levelHigh v ∉ check_alerts th s)) ∧
    (∀ (th : Thresholds) (s : Snapshot) (m : Metric), valueAt s m = none →
      ∀ a ∈ check_alerts th s, a.metric ≠ m) ∧
    (∀ (th : Thresholds) (s : Snapshot),
      List.Sublist ((check_alerts th s).map Alert.metric)
        [Metric.temperature, Metric.pH, Metric.conductivity, Metric.level,
         Metric.recirc_pump, Metric.dispense_pump, Metric.ups_battery]) := by
  refine ⟨by decide, ?_, ?_, ?_, ?_, ?_⟩
  · intro th s h
    rw [check_alerts, tempAlerts_ok th s (h _), phAlerts_ok th s (h _),
      levelAlerts_ok th s (h _), rpumpAlerts_ok th s (h _),
      dpumpAlerts_ok th s (h _), upsAlerts_ok th s (h _)]
    rfl
  · intro th s m hok hv
    simp only [check_alerts, List.map_append]
    cases m with
    | temperature =>
      rw [phAlerts_ok th s (hok _ (by decide)), levelAlerts_ok th s (hok _ (by decide)),
        rpumpAlerts_ok th s (hok _ (by decide)), dpumpAlerts_ok th s (hok _ (by decide)),
        upsAlerts_ok th s (hok _ (by decide)), tempAlerts_one th s hv]
      rfl
    | pH =>
      rw [tempAlerts_ok th s (hok _ (by decide)), levelAlerts_ok th s (hok _ (by decide)),
        rpumpAlerts_ok th s (hok _ (by decide)), dpumpAlerts_ok th s (hok _ (by decide)),
        upsAlerts_ok th s (hok _ (by decide)), phAlerts_one th s hv]
      rfl
    | conductivity =>
      rw [conductivity_never_violates th s] at hv
      exact absurd hv (by simp)
    | level =>
      rw [tempAlerts_ok th s (hok _ (by decide)), phAlerts_ok th s (hok _ (by decide)),
        rpumpAlerts_ok th s (hok _ (by decide)), dpumpAlerts_ok th s (hok _ (by decide)),
        upsAlerts_ok th s (hok _ (by decide)), levelAlerts_one th s hv]
      rfl
    | recirc_pump =>
      rw [tempAlerts_ok th s (hok _ (by decide)), phAlerts_ok th s (hok _ (by decide)),
        levelAlerts_ok th s (hok _ (by decide)), dpumpAlerts_ok th s (hok _ (by decide)),
        upsAlerts_ok th s (hok _ (by decide)), rpumpAlerts_one th s hv]
      rfl
    | dispense_pump =>
      rw [tempAlerts_ok th s (hok _ (by decide)), phAlerts_ok th s (hok _ (by decide)),
        levelAlerts_ok th s (hok _ (by decide)), rpumpAlerts_ok th s (hok _ (by decide)),
        upsAlerts_ok th s (hok _ (by decide)), dpumpAlerts_one th s hv]
      rfl
    | ups_battery =>
      rw [tempAlerts_ok th s (hok _ (by decide)), phAlerts_ok th s (hok _ (by decide)),
        levelAlerts_ok th s (hok _ (by decide)), rpumpAlerts_ok th s (hok _ (by decide)),
        dpumpAlerts_ok th s (hok _ (by decide)), upsAlerts_one th s hv]
      rfl
  · intro th s v
    refine ⟨?_, ?_, ?_⟩
    · intro h1 h2
      constructor
      · simp [check_alerts, tempAlerts, h1, h2]
      · intro hmem
        simp only [check_alerts, List.mem_append] at hmem
        rcases hmem with ((((h | h) | h) | h) | h) | h
        · simp [tempAlerts, h1, h2] at h
        · have := phAlerts_mem th s _ h; simp [Alert.metric] at this
        · have := levelAlerts_mem th s _ h; simp [Alert.metric] at this
        · have := rpumpAlerts_mem th s _ h; simp [Alert.metric] at this
        · have := dpumpAlerts_mem th s _ h; simp [Alert.metric] at this
        · have := upsAlerts_mem th s _ h; simp [Alert.metric] at this
    · intro h1 h2
      constructor
      · simp [check_alerts, phAlerts, h1, h2]
      · intro hmem
        simp only [check_alerts, List.mem_append] at hmem
        rcases hmem with ((((h | h) | h) | h) | h) | h
        · have := tempAlerts_mem th s _ h; simp [Alert.metric] at this
        · simp [phAlerts, h1, h2] at h
        · have := levelAlerts_mem th s _ h; simp [Alert.metric] at this
        · have := rpumpAlerts_mem th s _ h; simp [Alert.metric] at this
        · have := dpumpAlerts_mem th s _ h; simp [Alert.metric] at this
        · have := upsAlerts_mem th s _ h; simp [Alert.metric] at this
    · intro h1 h2
      constructor
      · simp [check_alerts, levelAlerts, h1, h2]
      · intro hmem
        simp only [check_alerts, List.mem_append] at hmem
        rcases hmem with ((((h | h) | h) | h) | h) | h
        · have := tempAlerts_mem th s _ h; simp [Alert.metric] at this
        · have := phAlerts_mem th s _ h; simp [Alert.metric] at this
        · simp [levelAlerts, h1, h2] at h
        · have := rpumpAlerts_mem th s _ h; simp [Alert.metric] at this
        · have := dpumpAlerts_mem th s _ h; simp [Alert.metric] at this
        · have := upsAlerts_mem th s _ h; simp [Alert.metric] at this
  · intro th s m hnone a ha
    simp only [check_alerts, List.mem_append] at ha
    rcases ha with ((((h | h) | h) | h) | h) | h
    · rw [tempAlerts_mem th s a h]
      rintro rfl
      simp only [valueAt] at hnone
      simp [tempAlerts, hnone] at h
    · rw [phAlerts_mem th s a h]
      rintro rfl
      simp only [valueAt] at hnone
      simp [phAlerts, hnone] at h
    · rw [levelAlerts_mem th s a h]
      rintro rfl
      simp only [valueAt] at hnone
      simp [levelAlerts, hnone] at h
    · rw [rpumpAlerts_mem th s a h]
      rintro rfl
      simp only [valueAt] at hnone
      simp [rpumpAlerts, hnone] at h
    · rw [dpumpAlerts_mem th s a h]
      rintro rfl
      simp only [valueAt] at hnone
      simp [dpumpAlerts, hnone] at h
    · rw [upsAlerts_mem th s a h]
      rintro rfl
      simp only [valueAt] at hnone
      simp [upsAlerts, hnone] at h
  · intro th s
    simp only [check_alerts, List.map_append]
    exact List.Sublist.append
      (List.Sublist.append
        (List.Sublist.append
          (List.Sublist.append
            (List.Sublist.append (tempAlerts_sub th s) (phAlerts_sub th s))
            (List.Sublist.cons Metric.conductivity (levelAlerts_sub th s)))
          (rpumpAlerts_sub th s))
        (dpumpAlerts_sub th s))
      (upsAlerts_sub th s)

/-- Witness for C5: with the scenario thresholds and a snapshot whose
only out-of-bounds metric is the UPS battery, the engine produces
exactly one alert, for that metric. -/
theorem check_alerts_spec_witness :
    (check_alerts thr5 snap8).map Alert.metric = [Metric.ups_battery] :=
  check_alerts_spec.2.2.1 thr5 snap8 .ups_battery (by decide) (by decide)

/-- Claim C8, counterexample: a UPS battery value exactly equal to the
configured low bound (25) DOES produce an alert — the source compares
with `<=` for `ups_battery`, unlike the strict `<` used for the pump
currents. -/
theorem ups_alert_at_bound_cex :
    check_alerts thr5 snap8 = [Alert.upsLow 25] ∧ thr5.ups_battery_low = 25 := by
  constructor
  · decide
  · decide

/-- Claim C8 (amended): the pump currents alert exactly when the present
value is strictly below the single low bound (equality produces no
alert), while the UPS battery alerts exactly when the present value is
at or below its low bound (equality does alert). -/
theorem one_sided_alerts (th : Thresholds) (s : Snapshot) (v : ℚ) :
    (s.recirc_pump = some v →
      (Alert.rpumpLow v ∈ check_alerts th s ↔ v < th.pump_current_low)) ∧
    (s.dispense_pump = some v →
      (Alert.dpumpLow v ∈ check_alerts th s ↔ v < th.pump_current_low)) ∧
    (s.ups_battery = some v →
      (Alert.upsLow v ∈ check_alerts th s ↔ v ≤ th.ups_battery_low)) := by
  refine ⟨?_, ?_, ?_⟩
  · intro h
    simp only [check_alerts, List.mem_append]
    constructor
    · rintro (((((hm | hm) | hm) | hm) | hm) | hm)
      · have := tempAlerts_mem th s _ hm; simp [Alert.metric] at this
      · have := phAlerts_mem th s _ hm; simp [Alert.metric] at this
      · have := levelAlerts_mem th s _ hm; simp [Alert.metric] at this
      · by_cases hvl : v < th.pump_current_low
        · exact hvl
        · simp [rpumpAlerts, h, hvl] at hm
      · have := dpumpAlerts_mem th s _ hm; simp [Alert.metric] at this
      · have := upsAlerts_mem th s _ hm; simp [Alert.metric] at this
    · intro hvl
      exact Or.inl (Or.inl (Or.inr (by simp [rpumpAlerts, h, hvl])))
  · intro h
    simp only [check_alerts, List.mem_append]
    constructor
    · rintro (((((hm | hm) | hm) | hm) | hm) | hm)
      · have := tempAlerts_mem th s _ hm; simp [Alert.metric] at this
      · have := phAlerts_mem th s _ hm; simp [Alert.metric] at this
      · have := levelAlerts_mem th s _ hm; simp [Alert.metric] at this
      · have := rpumpAlerts_mem th s _ hm; simp [Alert.metric] at this
      · by_cases hvl : v < th.pump_current_low
        · exact hvl
        · simp [dpumpAlerts, h, hvl] at hm
      · have := upsAlerts_mem th s _ hm; simp [Alert.metric] at this
    · intro hvl
      exact Or.inl (Or.inr (by simp [dpumpAlerts, h, hvl]))
  · intro h
    simp only [check_alerts, List.mem_append]
    constructor
    · rintro (((((hm | hm) | hm) | hm) | hm) | hm)
      · have := tempAlerts_mem th s _ hm; simp [Alert.metric] at this
      · have := phAlerts_mem th s _ hm; simp [Alert.metric] at this
      · have := levelAlerts_mem th s _ hm; simp [Alert.metric] at this
      · have := rpumpAlerts_mem th s _ hm; simp [Alert.metric] at this
      · have := dpumpAlerts_mem th s _ hm; simp [Alert.metric] at this
      · by_cases hvl : v ≤ th.ups_battery_low
        · exact hvl
        · simp [upsAlerts, h, hvl] at hm
    · intro hvl
      exact Or.inr (by simp [upsAlerts, h, hvl])

/-- A snapshot whose only present value is a recirculating-pump reading
of 3 (below the bound of 5 in `thr5`). -/
def snapR : Snapshot := ⟨none, none, none, none, some 3, none, none⟩

/-- Witness for C8: a pump current of 3, strictly below the bound 5,
alerts. -/
theorem one_sided_alerts_witness : Alert.rpumpLow 3 ∈ check_alerts thr5 snapR :=
  ((one_sided_alerts thr5 snapR 3).1 rfl).mpr (by decide)

/-! ## C6: telemetry result classification -/

/-- Claim C6: with no (or an empty) configured credential, `send_telemetry`
returns false without any network call; with a credential configured it
performs the call and returns true exactly for HTTP status 200 or 201,
returning false for any other status and for every caught transport
failure — it never raises to the caller (the model is a total function). -/
theorem send_telemetry_spec (tokens : String → Option String) (device : String)
    (net : NetOutcome) :
    ((tokens device = none ∨ tokens device = some "") →
      send_telemetry_result tokens device net = (false, false)) ∧
    (∀ t, tokens device = some t → t ≠ "" →
      (send_telemetry_result tokens device net).2 = true ∧
      ((send_telemetry_result tokens device net).1 = true ↔
        ∃ c, net = NetOutcome.status c ∧ (c = 200 ∨ c = 201))) := by
  constructor
  · rintro (h | h) <;> simp [send_telemetry_result, h]
  · intro t ht hne
    simp only [send_telemetry_result, ht]
    rw [if_neg hne]
    cases net with
    | status c => simp
    | sslError => simp
    | connError => simp
    | timeoutError => simp
    | otherError => simp

/-- Witness for C6: an unconfigured device publishes nothing and fails;
a configured device with an HTTP 200 response succeeds. -/
theorem send_telemetry_spec_witness :
    send_telemetry_result (fun _ => none) "pH" (.status 200) = (false, false) ∧
    (send_telemetry_result (fun _ => some "tok") "temperature" (.status 200)).1 = true :=
  ⟨(send_telemetry_spec (fun _ => none) "pH" (.status 200)).1 (Or.inl rfl),
   ((send_telemetry_spec (fun _ => some "tok") "temperature" (.status 200)).2 "tok" rfl
      (by decide)).2.mpr ⟨200, rfl, Or.inl rfl⟩⟩

/-! ## C7: cycle fault isolation and rearming -/

/-- Claim C7: in both periodic loops, an exception in the cycle body is
caught and still arms the next timer; each loop arms its next timer
exactly when `running` is true at the end of the iteration; once
`running` is false neither loop ever reschedules itself. -/
theorem cycle_rearm_iff_running (running : Bool) (bodyU : Except Unit Bool)
    (bodyC : Except Unit Unit) :
    ((ups_monitoring_cycle running bodyU).2 = (ups_monitoring_cycle running bodyU).1) ∧
    ((collect_and_publish running bodyC).2 = (collect_and_publish running bodyC).1) ∧
    (ups_monitoring_cycle true (.error ())).2 = true ∧
    (collect_and_publish true (.error ())).2 = true ∧
    (ups_monitoring_cycle false bodyU).2 = false ∧
    (collect_and_publish false bodyC).2 = false := by
  refine ⟨?_, ?_, rfl, rfl, rfl, rfl⟩
  · cases running
    · rfl
    · rcases bodyU with e | b
      · rfl
      · cases b <;> rfl
  · cases running
    · rfl
    · rcases bodyC with e | u <;> rfl

/-! ## C9: CSV logging of zero readings -/

/-- Claim C9 is right and the code is wrong: `log_data` renders each
field with `value or ""`, so a present reading of `0` — a legitimate
value the publisher and the alert engine both treat as present — is
written as an empty CSV field, exactly as an absent reading would be.
Here a recirculating-pump reading of `0` yields an empty fifth field. -/
theorem log_zero_field_empty :
    logFields ⟨some 22, some 7, some 1200, some 500, some 0, some 380, some 90⟩ =
      [some 22, some 7, some 1200, some 500, none, some 380, some 90] := by
  decide

/-! ## C10: payload aliasing in `send_telemetry` -/

theorem setKey_lookup (k : String) (v : ℤ) (d : List (String × ℤ)) :
    (setKey k v d).lookup k = some v := by
  unfold setKey
  by_cases hany : d.any (fun p => decide (p.1 = k)) = true
  · rw [if_pos hany]
    induction d with
    | nil => simp at hany
    | cons hd t ih =>
      simp only [List.map_cons]
      by_cases hk : hd.1 = k
      · rw [if_pos hk]
        simp [List.lookup]
      · rw [if_neg hk]
        have hb : (k == hd.1) = false := by
          rw [beq_eq_false_iff_ne]
          exact fun hc => hk hc.symm
        have ht : t.any (fun p => decide (p.1 = k)) = true := by
          simp only [List.any_cons, hk] at hany
          simpa using hany
        simp only [List.lookup, hb]
        exact ih ht
  · rw [if_neg hany]
    induction d with
    | nil => simp [List.lookup]
    | cons hd t ih =>
      have hk : ¬ hd.1 = k := fun hc => hany (by simp [List.any_cons, hc])
      have hb : (k == hd.1) = false := by
        rw [beq_eq_false_iff_ne]
        exact fun hc => hk hc.symm
      have ht : ¬ t.any (fun p => decide (p.1 = k)) = true :=
        fun hc => hany (by simp [List.any_cons, hc])
      simp only [List.cons_append, List.lookup, hb]
      exact ih ht

theorem getD_set_self (store : List (List (String × ℤ))) (ref : ℕ)
    (x : List (String × ℤ)) (h : ref < store.length) :
    (store.set ref x).getD ref [] = x := by
  induction store generalizing ref with
  | nil => simp at h
  | cons a t ih =>
    cases ref with
    | zero => simp [List.set]
    | succ n =>
      have : n < t.length := by simpa using h
      simpa [List.set] using ih n this

/-- Claim C10: when `data` is a dict, `send_telemetry` writes `"ts"` into
the very dict object the caller passed (the payload reference returned is
the argument reference), so after the call the caller's dict contains the
timestamp; if it did not contain `"ts"` before, it is observably changed. -/
theorem telemetry_payload_mutation (store : List (List (String × ℤ))) (ref : ℕ)
    (ts : ℤ) (h : ref < store.length) :
    (send_telemetry_payload store ref ts).2 = ref ∧
    ((send_telemetry_payload store ref ts).1.getD ref []).lookup "ts" = some ts ∧
    ((store.getD ref []).lookup "ts" = none →
      (send_telemetry_payload store ref ts).1.getD ref [] ≠ store.getD ref []) := by
  refine ⟨rfl, ?_, ?_⟩
  · simp only [send_telemetry_payload]
    rw [getD_set_self _ _ _ h]
    exact setKey_lookup _ _ _
  · intro h0 heq
    have hl := setKey_lookup "ts" ts (store.getD ref [])
    simp only [send_telemetry_payload] at heq
    rw [getD_set_self _ _ _ h] at heq
    rw [heq, h0] at hl
    exact Option.noConfusion hl

/-- Witness for C10: posting for a dict `{"temperature": 5}` stores the
timestamp into that same dict. -/
theorem telemetry_payload_mutation_witness :
    ((send_telemetry_payload [[("temperature", 5)]] 0 99).1.getD 0 []).lookup "ts" =
      some 99 :=
  (telemetry_payload_mutation [[("temperature", 5)]] 0 99 (by decide)).2.1

end RAS
